import Mathlib

/-!
Verification of the range-aware model asset server (`app.get('/models/:file')`
in `backend/server.js`).

The handler is embedded shallowly:

* the models directory is a finite association list from file names to file
  contents (a byte list) together with a modification time;
* the JavaScript string operations the handler relies on
  (`String.prototype.includes`, `String.prototype.replace` with a literal
  regex, `String.prototype.split` with a single-character separator and
  `parseInt(s, 10)`) are modelled on `List Char`;
* the HTTP response is a record of the status, the headers the handler sets
  explicitly, and the streamed body bytes.
-/

namespace AssetServer

/-- A file in the models directory: its bytes and its modification time. -/
structure FileInfo where
  bytes : List Nat
  mtime : Nat
deriving DecidableEq

/-- The models directory: an association list from names to files. -/
abbrev FS := List (String × FileInfo)

/-- Exact-name lookup in the models directory (`fs.existsSync` / `fs.statSync`). -/
def lookupFS : FS → String → Option FileInfo
  | [], _ => none
  | (n, i) :: rest, name => if n = name then some i else lookupFS rest name

/-- `hay` starts with `pat` (helper for the JS substring operations). -/
def startsWithL : List Char → List Char → Bool
  | _, [] => true
  | [], _ :: _ => false
  | a :: as, b :: bs => a = b && startsWithL as bs

/-- `needle` occurs as a contiguous substring of the second argument. -/
def containsSubL (needle : List Char) : List Char → Bool
  | [] => startsWithL [] needle
  | c :: t => startsWithL (c :: t) needle || containsSubL needle t

/-- JavaScript `hay.includes(needle)`: raw substring containment. -/
def jsIncludes (hay needle : String) : Bool :=
  containsSubL needle.data hay.data

/-- JavaScript `s.replace(/pat/, '')` for a literal pattern: remove the first
occurrence of `pat`, leave the string unchanged when `pat` does not occur. -/
def replaceFirstL (pat : List Char) : List Char → List Char
  | [] => []
  | c :: rest =>
    if startsWithL (c :: rest) pat then List.drop pat.length (c :: rest)
    else c :: replaceFirstL pat rest

/-- JavaScript `s.split(sep)` for a one-character separator: `"".split` is
`[""]`, separators at the ends produce empty segments. -/
def jsSplitCh (sep : Char) : List Char → List (List Char)
  | [] => [[]]
  | c :: rest =>
    if c = sep then [] :: jsSplitCh sep rest
    else
      match jsSplitCh sep rest with
      | [] => [[c]]
      | p :: ps => (c :: p) :: ps

/-- Digit-accumulating core of `parseInt`: consume leading decimal digits,
`none` when no digit was consumed (the `NaN` outcome). -/
def parseDigitsAcc : List Char → Option Nat → Option Nat
  | [], acc => acc
  | c :: rest, acc =>
    if c.isDigit then parseDigitsAcc rest (some (acc.getD 0 * 10 + (c.toNat - 48)))
    else acc

/-- Whitespace skipped by JavaScript `parseInt`. -/
def isJsSpace (c : Char) : Bool :=
  c = ' ' || c = '\t' || c = '\n' || c = '\r'

/-- JavaScript `parseInt(s, 10)`: skip whitespace, optional sign, leading
decimal digits; `none` models `NaN`. -/
def jsParseIntL (s : List Char) : Option Int :=
  match s.dropWhile isJsSpace with
  | '-' :: rest => (parseDigitsAcc rest none).map (fun n => -(n : Int))
  | '+' :: rest => (parseDigitsAcc rest none).map (fun n => (n : Int))
  | other => (parseDigitsAcc other none).map (fun n => (n : Int))

/-- The handler's Range parse (`server.js` lines 126-128):
`range.replace(/bytes=/, '').split('-')`, `parseInt(parts[0], 10)`, and
`parts[1] ? parseInt(parts[1], 10) : total - 1`. `none` components model
`NaN` outcomes. -/
def parseRangeHeader (r : String) (total : Nat) : Option Int × Option Int :=
  let parts := jsSplitCh '-' (replaceFirstL ("bytes=".data) r.data)
  let s? := jsParseIntL (parts.getD 0 [])
  let p1 := parts.getD 1 []
  let e? := if p1 = [] then some ((total : Int) - 1) else jsParseIntL p1
  (s?, e?)

/-- Variant selection (`server.js` lines 92-104): prefer the `.br` sibling when
the Accept-Encoding value contains `"br"` and the sibling exists, else the
`.gz` sibling when the value contains `"gzip"` and it exists, else the
canonical file. Returns the chosen path and the Content-Encoding to set. -/
def chooseVariant (fsys : FS) (fileName acceptEnc : String) : String × Option String :=
  if jsIncludes acceptEnc "br" && (lookupFS fsys (fileName ++ ".br")).isSome then
    (fileName ++ ".br", some "br")
  else if jsIncludes acceptEnc "gzip" && (lookupFS fsys (fileName ++ ".gz")).isSome then
    (fileName ++ ".gz", some "gzip")
  else
    (fileName, none)

/-- The request inputs the handler looks at: the `:file` route parameter and
the `Accept-Encoding` and `Range` headers (absent headers are `none`). -/
structure Req where
  file : String
  acceptEncoding : Option String := none
  range : Option String := none
deriving DecidableEq

/-- The response: status, every header the handler sets explicitly, the
streamed body bytes, and the plain-text body of the error paths. -/
structure Resp where
  status : Nat
  contentType : Option String := none
  contentEncoding : Option String := none
  cacheControl : Option String := none
  contentRange : Option String := none
  acceptRanges : Option String := none
  contentLength : Option Int := none
  vary : Option String := none
  allowOrigin : Option String := none
  bodyBytes : List Nat := []
  bodyText : Option String := none
deriving DecidableEq

/-- The 404 response (`res.status(404).send('Not found')`), produced before
any other header is set. -/
def resp404 : Resp :=
  { status := 404, bodyText := some "Not found" }

/-- The catch-all 500 response (`res.status(500).send('Server error')`);
`Vary` and the CORS header were already set before the `try` block. -/
def resp500 : Resp :=
  { status := 500, vary := some "Accept-Encoding", allowOrigin := some "*",
    bodyText := some "Server error" }

/-- Cache-Control policy (`server.js` lines 117-122): the regex test of
`-optimized` against the file name is substring containment. -/
def cacheControlFor (fileName : String) : String :=
  if jsIncludes fileName "-optimized" then "public, max-age=31536000, immutable"
  else "public, max-age=86400"

/-- The headers every successful path sets before range handling. -/
def baseHeaders (fileName : String) (contentEncoding : Option String) : Resp :=
  { status := 200
    contentType := some "model/gltf-binary"
    contentEncoding := contentEncoding
    cacheControl := some (cacheControlFor fileName)
    vary := some "Accept-Encoding"
    allowOrigin := some "*" }

/-- The full-body branch (`server.js` lines 146-155): status 200 by default,
`Accept-Ranges`, `Content-Length` = total, stream the whole file. -/
def fullBodyResp (base : Resp) (bytes : List Nat) : Resp :=
  { base with
    acceptRanges := some "bytes"
    contentLength := some ((bytes.length : Int))
    bodyBytes := bytes }

/-- The 416 branch (`server.js` lines 129-132): `Content-Range: bytes */total`
and `res.end()` with no body. -/
def resp416 (base : Resp) (total : Nat) : Resp :=
  { base with
    status := 416
    contentRange := some ("bytes */" ++ toString total) }

/-- The 206 branch (`server.js` lines 134-145): `fs.createReadStream` with
inclusive `start`/`end` truncates at end of file, exactly `drop` then `take`. -/
def resp206 (base : Resp) (bytes : List Nat) (s e : Int) : Resp :=
  { base with
    status := 206
    contentRange := some ("bytes " ++ toString s ++ "-" ++ toString e ++ "/" ++
      toString bytes.length)
    acceptRanges := some "bytes"
    contentLength := some (e - s + 1)
    bodyBytes := (bytes.drop s.toNat).take (e - s + 1).toNat }

/-- The `GET /models/:file` handler (`server.js` lines 80-160). -/
def serveModels (fsys : FS) (req : Req) : Resp :=
  match lookupFS fsys req.file with
  | none => resp404
  | some _ =>
    let acceptEnc := req.acceptEncoding.getD ""
    let choice := chooseVariant fsys req.file acceptEnc
    match lookupFS fsys choice.1 with
    | none => resp500
    | some info =>
      let total := info.bytes.length
      let base := baseHeaders req.file choice.2
      match req.range with
      | none => fullBodyResp base info.bytes
      | some r =>
        if r = "" then fullBodyResp base info.bytes
        else
          match parseRangeHeader r total with
          | (some s, some e) =>
            if s > e then resp416 base total
            else resp206 base info.bytes s e
          | (some _, none) => resp416 base total
          | (none, _) => resp416 base total

/-! ### Helper lemmas -/

/-- Unfolding of the handler on the full-body path (no `Range` header). -/
theorem serveModels_full_none (fsys : FS) (req : Req) (i0 info : FileInfo)
    (h0 : lookupFS fsys req.file = some i0)
    (hsel : lookupFS fsys (chooseVariant fsys req.file (req.acceptEncoding.getD "")).1 = some info)
    (hr : req.range = none) :
    serveModels fsys req =
      fullBodyResp
        (baseHeaders req.file (chooseVariant fsys req.file (req.acceptEncoding.getD "")).2)
        info.bytes := by
  simp only [serveModels, h0, hsel, hr]

/-- Unfolding of the handler on the 206 path. -/
theorem serveModels_range206 (fsys : FS) (req : Req) (i0 info : FileInfo) (r : String)
    (s e : Int)
    (h0 : lookupFS fsys req.file = some i0)
    (hsel : lookupFS fsys (chooseVariant fsys req.file (req.acceptEncoding.getD "")).1 = some info)
    (hr : req.range = some r) (hne : r ≠ "")
    (hp : parseRangeHeader r info.bytes.length = (some s, some e))
    (hse : s ≤ e) :
    serveModels fsys req =
      resp206
        (baseHeaders req.file (chooseVariant fsys req.file (req.acceptEncoding.getD "")).2)
        info.bytes s e := by
  have hnotgt : ¬ s > e := not_lt.mpr hse
  simp only [serveModels, h0, hsel, hr, hne, hp, hnotgt, if_false, if_neg hne]

/-- Unfolding of the handler on the 416 path: the parse produced a `NaN`
component or the bounds are out of order. -/
theorem serveModels_rangeError (fsys : FS) (req : Req) (i0 info : FileInfo) (r : String)
    (h0 : lookupFS fsys req.file = some i0)
    (hsel : lookupFS fsys (chooseVariant fsys req.file (req.acceptEncoding.getD "")).1 = some info)
    (hr : req.range = some r) (hne : r ≠ "")
    (hbad : (parseRangeHeader r info.bytes.length).1 = none ∨
            (parseRangeHeader r info.bytes.length).2 = none ∨
            ∃ s e, parseRangeHeader r info.bytes.length = (some s, some e) ∧ e < s) :
    serveModels fsys req =
      resp416
        (baseHeaders req.file (chooseVariant fsys req.file (req.acceptEncoding.getD "")).2)
        info.bytes.length := by
  rcases hp : parseRangeHeader r info.bytes.length with ⟨s?, e?⟩
  rw [hp] at hbad
  simp only [serveModels, h0, hsel, hr, if_neg hne, hp]
  rcases s? with _ | s
  · rfl
  rcases e? with _ | e
  · rfl
  rcases hbad with h | h | ⟨s', e', hpe, hlt⟩
  · simp at h
  · simp at h
  · obtain ⟨hs', he'⟩ : s = s' ∧ e = e' := by
      constructor <;> [exact (Option.some_inj.mp (congrArg Prod.fst hpe));
        exact (Option.some_inj.mp (congrArg Prod.snd hpe))]
    subst hs'
    subst he'
    simp [show s > e from hlt]

/-- The fields every non-404, non-500 response shares: the Content-Encoding of
the chosen variant, the Cache-Control policy, and a status among 200/206/416. -/
theorem serveModels_common (fsys : FS) (req : Req) (i0 info : FileInfo)
    (h0 : lookupFS fsys req.file = some i0)
    (hsel : lookupFS fsys (chooseVariant fsys req.file (req.acceptEncoding.getD "")).1 = some info) :
    ∃ b : Resp,
      serveModels fsys req = b ∧
      b.contentEncoding = (chooseVariant fsys req.file (req.acceptEncoding.getD "")).2 ∧
      b.cacheControl = some (cacheControlFor req.file) ∧
      (b.status = 200 ∨ b.status = 206 ∨ b.status = 416) := by
  simp only [serveModels, h0, hsel]
  cases hR : req.range with
  | none => exact ⟨_, rfl, rfl, rfl, Or.inl rfl⟩
  | some r =>
    by_cases hE : r = ""
    · simp only [hE, if_pos rfl]
      exact ⟨_, rfl, rfl, rfl, Or.inl rfl⟩
    · simp only [if_neg hE]
      rcases parseRangeHeader r info.bytes.length with ⟨s?, e?⟩
      rcases s? with _ | s
      · exact ⟨_, rfl, rfl, rfl, Or.inr (Or.inr rfl)⟩
      rcases e? with _ | e
      · exact ⟨_, rfl, rfl, rfl, Or.inr (Or.inr rfl)⟩
      by_cases hgt : s > e
      · simp only [if_pos hgt]
        exact ⟨_, rfl, rfl, rfl, Or.inr (Or.inr rfl)⟩
      · simp only [if_neg hgt]
        exact ⟨_, rfl, rfl, rfl, Or.inr (Or.inl rfl)⟩

/-- A list starts with any of its own initial segments. -/
theorem startsWithL_append (pre rest : List Char) : startsWithL (pre ++ rest) pre = true := by
  induction pre with
  | nil => cases rest <;> rfl
  | cons c cs ih => simp [startsWithL, ih]

/-- Removing the first occurrence of a pattern from a string that begins with
it leaves the remainder. -/
theorem replaceFirstL_self_append (pat rest : List Char) (h : pat ≠ []) :
    replaceFirstL pat (pat ++ rest) = rest := by
  cases pat with
  | nil => exact absurd rfl h
  | cons c cs =>
    have hs : startsWithL (c :: (cs ++ rest)) (c :: cs) = true :=
      startsWithL_append (c :: cs) rest
    show replaceFirstL (c :: cs) (c :: (cs ++ rest)) = rest
    rw [replaceFirstL, if_pos hs]
    show List.drop cs.length (cs ++ rest) = rest
    exact List.drop_left cs rest

/-- Splitting a list that begins with the separator yields a leading empty
segment, as JavaScript `split` does. -/
theorem jsSplitCh_sep_cons (sep : Char) (t : List Char) :
    jsSplitCh sep (sep :: t) = [] :: jsSplitCh sep t := by
  simp [jsSplitCh]

/-- `parseInt` of the empty string is `NaN`. -/
theorem jsParseIntL_nil : jsParseIntL [] = none := rfl

/-- A Range value of the suffix form `bytes=-<rest>` parses to a `NaN` start
bound, because the segment before the first dash is empty. -/
theorem parseRangeHeader_suffix_start_nan (r : String) (t : List Char) (total : Nat)
    (hd : r.data = "bytes=".data ++ ('-' :: t)) :
    (parseRangeHeader r total).1 = none := by
  unfold parseRangeHeader
  rw [hd, replaceFirstL_self_append _ _ (by decide), jsSplitCh_sep_cons]
  rfl

/-- Length of the streamed slice when the bounds lie inside the file. -/
theorem length_rangeSlice (bytes : List Nat) (s e : Int) (hs : 0 ≤ s) (hse : s ≤ e)
    (he : e < (bytes.length : Int)) :
    ((bytes.drop s.toNat).take (e - s + 1).toNat).length = (e - s + 1).toNat := by
  simp only [List.length_take, List.length_drop]
  omega

/-! ### Claims -/

/-- Claim C6: when no canonical file in the models directory exactly matches
the requested name, the handler responds 404 with the short plain-text body
`Not found` and no byte body; the lookup is an exact string match, so a
sibling variant or a differently-cased file does not make the asset found. -/
theorem c6_missing_asset_404 (fsys : FS) (req : Req)
    (h : lookupFS fsys req.file = none) :
    (serveModels fsys req).status = 404 ∧
    (serveModels fsys req).bodyText = some "Not found" ∧
    (serveModels fsys req).bodyBytes = [] := by
  simp only [serveModels, h]
  exact ⟨rfl, rfl, rfl⟩

/-- Witness for C6: `lamp.glb` is absent although `Lamp.glb` (different case)
and both compressed siblings of `lamp.glb` are present; the response is 404. -/
theorem c6_witness :
    (serveModels
      [("Lamp.glb", ⟨[1], 0⟩), ("lamp.glb.gz", ⟨[2], 0⟩), ("lamp.glb.br", ⟨[3], 0⟩)]
      ⟨"lamp.glb", none, none⟩).status = 404 ∧
    (serveModels
      [("Lamp.glb", ⟨[1], 0⟩), ("lamp.glb.gz", ⟨[2], 0⟩), ("lamp.glb.br", ⟨[3], 0⟩)]
      ⟨"lamp.glb", none, none⟩).bodyText = some "Not found" ∧
    (serveModels
      [("Lamp.glb", ⟨[1], 0⟩), ("lamp.glb.gz", ⟨[2], 0⟩), ("lamp.glb.br", ⟨[3], 0⟩)]
      ⟨"lamp.glb", none, none⟩).bodyBytes = [] :=
  c6_missing_asset_404
    [("Lamp.glb", ⟨[1], 0⟩), ("lamp.glb.gz", ⟨[2], 0⟩), ("lamp.glb.br", ⟨[3], 0⟩)]
    ⟨"lamp.glb", none, none⟩ (by decide)

/-- Claim C7: a request for an existing asset with no Range header is answered
with status 200, `Accept-Ranges: bytes`, `Content-Length` equal to the selected
variant's total byte size, and the entire selected variant's bytes as body. -/
theorem c7_no_range_full_body (fsys : FS) (req : Req) (i0 info : FileInfo)
    (h0 : lookupFS fsys req.file = some i0)
    (hsel : lookupFS fsys (chooseVariant fsys req.file (req.acceptEncoding.getD "")).1 = some info)
    (hr : req.range = none) :
    (serveModels fsys req).status = 200 ∧
    (serveModels fsys req).acceptRanges = some "bytes" ∧
    (serveModels fsys req).contentLength = some ((info.bytes.length : Int)) ∧
    (serveModels fsys req).bodyBytes = info.bytes := by
  rw [serveModels_full_none fsys req i0 info h0 hsel hr]
  exact ⟨rfl, rfl, rfl, rfl⟩

/-- Witness for C7: a three-byte asset with no siblings is served whole. -/
theorem c7_witness :
    (serveModels [("a.glb", ⟨[5, 6, 7], 0⟩)] ⟨"a.glb", none, none⟩).status = 200 ∧
    (serveModels [("a.glb", ⟨[5, 6, 7], 0⟩)] ⟨"a.glb", none, none⟩).acceptRanges = some "bytes" ∧
    (serveModels [("a.glb", ⟨[5, 6, 7], 0⟩)] ⟨"a.glb", none, none⟩).contentLength = some 3 ∧
    (serveModels [("a.glb", ⟨[5, 6, 7], 0⟩)] ⟨"a.glb", none, none⟩).bodyBytes = [5, 6, 7] :=
  c7_no_range_full_body [("a.glb", ⟨[5, 6, 7], 0⟩)] ⟨"a.glb", none, none⟩
    ⟨[5, 6, 7], 0⟩ ⟨[5, 6, 7], 0⟩ (by decide) (by decide) rfl

/-- Claim C8: for an existing asset the Cache-Control header is decided solely
by a substring test on the requested file name: names containing `-optimized`
get the one-year immutable directive, all others the one-day public one. -/
theorem c8_cache_control_policy (fsys : FS) (req : Req) (i0 info : FileInfo)
    (h0 : lookupFS fsys req.file = some i0)
    (hsel : lookupFS fsys (chooseVariant fsys req.file (req.acceptEncoding.getD "")).1 = some info) :
    (serveModels fsys req).cacheControl =
      some (if jsIncludes req.file "-optimized" then "public, max-age=31536000, immutable"
            else "public, max-age=86400") := by
  obtain ⟨b, hb, -, hcc, -⟩ := serveModels_common fsys req i0 info h0 hsel
  rw [hb, hcc]
  rfl

/-- Witness for C8: a file whose name contains `-optimized` gets the one-year
immutable directive. -/
theorem c8_witness :
    (serveModels [("chair-optimized.glb", ⟨[1, 2], 0⟩)]
      ⟨"chair-optimized.glb", none, none⟩).cacheControl =
      some "public, max-age=31536000, immutable" :=
  c8_cache_control_policy [("chair-optimized.glb", ⟨[1, 2], 0⟩)]
    ⟨"chair-optimized.glb", none, none⟩ ⟨[1, 2], 0⟩ ⟨[1, 2], 0⟩ (by decide) (by decide)

/-- Claim C5: a Range header whose start or end bound fails numeric parsing,
or whose parsed bounds satisfy start > end, is answered with status 416,
`Content-Range: bytes */<total>` for the selected variant's size, and an
empty body. -/
theorem c5_unparsable_or_inverted_range_416 (fsys : FS) (req : Req) (i0 info : FileInfo)
    (r : String)
    (h0 : lookupFS fsys req.file = some i0)
    (hsel : lookupFS fsys (chooseVariant fsys req.file (req.acceptEncoding.getD "")).1 = some info)
    (hr : req.range = some r) (hne : r ≠ "")
    (hbad : (parseRangeHeader r info.bytes.length).1 = none ∨
            (parseRangeHeader r info.bytes.length).2 = none ∨
            ∃ s e, parseRangeHeader r info.bytes.length = (some s, some e) ∧ e < s) :
    (serveModels fsys req).status = 416 ∧
    (serveModels fsys req).contentRange = some ("bytes */" ++ toString info.bytes.length) ∧
    (serveModels fsys req).bodyBytes = [] := by
  rw [serveModels_rangeError fsys req i0 info r h0 hsel hr hne hbad]
  exact ⟨rfl, rfl, rfl⟩

set_option maxRecDepth 100000 in
/-- Witness for C5: the spec's scenario `Range: bytes=300-200` on a 1000-byte
asset yields 416 with `Content-Range: bytes */1000`. -/
theorem c5_witness :
    (serveModels [("a.glb", ⟨List.replicate 1000 7, 0⟩)]
      ⟨"a.glb", none, some "bytes=300-200"⟩).status = 416 ∧
    (serveModels [("a.glb", ⟨List.replicate 1000 7, 0⟩)]
      ⟨"a.glb", none, some "bytes=300-200"⟩).contentRange = some "bytes */1000" ∧
    (serveModels [("a.glb", ⟨List.replicate 1000 7, 0⟩)]
      ⟨"a.glb", none, some "bytes=300-200"⟩).bodyBytes = [] :=
  c5_unparsable_or_inverted_range_416 [("a.glb", ⟨List.replicate 1000 7, 0⟩)]
    ⟨"a.glb", none, some "bytes=300-200"⟩ ⟨List.replicate 1000 7, 0⟩
    ⟨List.replicate 1000 7, 0⟩ "bytes=300-200" (by decide) (by decide) rfl (by decide)
    (Or.inr (Or.inr ⟨300, 200, by decide, by decide⟩))

/-- Claim C10: when the Accept-Encoding header is absent it is treated as the
empty string, so the canonical file is selected with no Content-Encoding
header even when siblings exist, and the handler never answers 500. -/
theorem c10_absent_accept_encoding (fsys : FS) (req : Req) (i0 : FileInfo)
    (h0 : lookupFS fsys req.file = some i0)
    (hae : req.acceptEncoding = none) :
    chooseVariant fsys req.file (req.acceptEncoding.getD "") = (req.file, none) ∧
    (serveModels fsys req).contentEncoding = none ∧
    (serveModels fsys req).status ≠ 500 := by
  have hbr : jsIncludes "" "br" = false := by decide
  have hgz : jsIncludes "" "gzip" = false := by decide
  have hch : chooseVariant fsys req.file (req.acceptEncoding.getD "") = (req.file, none) := by
    rw [hae]
    show chooseVariant fsys req.file "" = (req.file, none)
    simp [chooseVariant, hbr, hgz]
  have hsel : lookupFS fsys (chooseVariant fsys req.file (req.acceptEncoding.getD "")).1 =
      some i0 := by
    rw [hch]
    exact h0
  obtain ⟨b, hb, hce, -, hst⟩ := serveModels_common fsys req i0 i0 h0 hsel
  refine ⟨hch, ?_, ?_⟩
  · rw [hb, hce, hch]
  · rw [hb]
    rcases hst with h | h | h <;> omega

/-- Witness for C10: both siblings exist but the request has no
Accept-Encoding header, so the canonical file is chosen. -/
theorem c10_witness :
    chooseVariant
      [("a.glb", ⟨[1, 2], 9⟩), ("a.glb.br", ⟨[3], 9⟩), ("a.glb.gz", ⟨[4], 9⟩)]
      "a.glb" ((none : Option String).getD "") = ("a.glb", none) ∧
    (serveModels
      [("a.glb", ⟨[1, 2], 9⟩), ("a.glb.br", ⟨[3], 9⟩), ("a.glb.gz", ⟨[4], 9⟩)]
      ⟨"a.glb", none, none⟩).contentEncoding = none ∧
    (serveModels
      [("a.glb", ⟨[1, 2], 9⟩), ("a.glb.br", ⟨[3], 9⟩), ("a.glb.gz", ⟨[4], 9⟩)]
      ⟨"a.glb", none, none⟩).status ≠ 500 :=
  c10_absent_accept_encoding
    [("a.glb", ⟨[1, 2], 9⟩), ("a.glb.br", ⟨[3], 9⟩), ("a.glb.gz", ⟨[4], 9⟩)]
    ⟨"a.glb", none, none⟩ ⟨[1, 2], 9⟩ (by decide) rfl

/-- Claim C1: for an existing asset and a range whose numeric bounds satisfy
0 ≤ start ≤ end < total (total the selected variant's size), the handler
responds 206 with `Content-Range: bytes start-end/total`,
`Accept-Ranges: bytes`, `Content-Length` = end-start+1, and a body of exactly
end-start+1 bytes equal to the corresponding slice of the full-body (no-Range)
response for the same variant. -/
theorem c1_valid_range_partial_content (fsys : FS) (req : Req) (r : String)
    (i0 info : FileInfo) (s e : Int)
    (h0 : lookupFS fsys req.file = some i0)
    (hr : req.range = some r) (hne : r ≠ "")
    (hsel : lookupFS fsys (chooseVariant fsys req.file (req.acceptEncoding.getD "")).1 = some info)
    (hp : parseRangeHeader r info.bytes.length = (some s, some e))
    (hs : 0 ≤ s) (hse : s ≤ e) (he : e < (info.bytes.length : Int)) :
    (serveModels fsys req).status = 206 ∧
    (serveModels fsys req).contentRange =
      some ("bytes " ++ toString s ++ "-" ++ toString e ++ "/" ++ toString info.bytes.length) ∧
    (serveModels fsys req).acceptRanges = some "bytes" ∧
    (serveModels fsys req).contentLength = some (e - s + 1) ∧
    (serveModels fsys req).bodyBytes.length = (e - s + 1).toNat ∧
    (serveModels fsys req).bodyBytes =
      ((serveModels fsys { req with range := none }).bodyBytes.drop s.toNat).take
        (e - s + 1).toNat := by
  rw [serveModels_range206 fsys req i0 info r s e h0 hsel hr hne hp hse]
  have hfull : serveModels fsys { req with range := none } =
      fullBodyResp
        (baseHeaders req.file (chooseVariant fsys req.file (req.acceptEncoding.getD "")).2)
        info.bytes :=
    serveModels_full_none fsys { req with range := none } i0 info h0 hsel rfl
  rw [hfull]
  exact ⟨rfl, rfl, rfl, rfl, length_rangeSlice info.bytes s e hs hse he, rfl⟩

/-- Witness for C1: `bytes=2-5` on a ten-byte asset returns the four bytes at
offsets 2..5 of the full response. -/
theorem c1_witness :
    (serveModels [("a.glb", ⟨[0, 1, 2, 3, 4, 5, 6, 7, 8, 9], 0⟩)]
      ⟨"a.glb", none, some "bytes=2-5"⟩).status = 206 ∧
    (serveModels [("a.glb", ⟨[0, 1, 2, 3, 4, 5, 6, 7, 8, 9], 0⟩)]
      ⟨"a.glb", none, some "bytes=2-5"⟩).contentRange = some "bytes 2-5/10" ∧
    (serveModels [("a.glb", ⟨[0, 1, 2, 3, 4, 5, 6, 7, 8, 9], 0⟩)]
      ⟨"a.glb", none, some "bytes=2-5"⟩).acceptRanges = some "bytes" ∧
    (serveModels [("a.glb", ⟨[0, 1, 2, 3, 4, 5, 6, 7, 8, 9], 0⟩)]
      ⟨"a.glb", none, some "bytes=2-5"⟩).contentLength = some 4 ∧
    (serveModels [("a.glb", ⟨[0, 1, 2, 3, 4, 5, 6, 7, 8, 9], 0⟩)]
      ⟨"a.glb", none, some "bytes=2-5"⟩).bodyBytes.length = 4 ∧
    (serveModels [("a.glb", ⟨[0, 1, 2, 3, 4, 5, 6, 7, 8, 9], 0⟩)]
      ⟨"a.glb", none, some "bytes=2-5"⟩).bodyBytes =
      ((serveModels [("a.glb", ⟨[0, 1, 2, 3, 4, 5, 6, 7, 8, 9], 0⟩)]
        ⟨"a.glb", none, none⟩).bodyBytes.drop 2).take 4 :=
  c1_valid_range_partial_content [("a.glb", ⟨[0, 1, 2, 3, 4, 5, 6, 7, 8, 9], 0⟩)]
    ⟨"a.glb", none, some "bytes=2-5"⟩ "bytes=2-5"
    ⟨[0, 1, 2, 3, 4, 5, 6, 7, 8, 9], 0⟩ ⟨[0, 1, 2, 3, 4, 5, 6, 7, 8, 9], 0⟩ 2 5
    (by decide) rfl (by decide) (by decide) (by decide) (by decide) (by decide) (by decide)

/-- Claim C2: variant selection is the fixed preference order by raw substring
containment on Accept-Encoding: brotli when the value contains `br` and the
`.br` sibling exists; else gzip when the value contains `gzip` and the `.gz`
sibling exists; else the canonical file with no Content-Encoding. When both
siblings exist and the header contains both tokens, brotli wins. -/
theorem c2_variant_preference (fsys : FS) (req : Req) (i0 : FileInfo)
    (h0 : lookupFS fsys req.file = some i0) :
    (jsIncludes (req.acceptEncoding.getD "") "br" = true →
      (lookupFS fsys (req.file ++ ".br")).isSome = true →
      chooseVariant fsys req.file (req.acceptEncoding.getD "") = (req.file ++ ".br", some "br") ∧
      (serveModels fsys req).contentEncoding = some "br") ∧
    ((jsIncludes (req.acceptEncoding.getD "") "br" = false ∨
        (lookupFS fsys (req.file ++ ".br")).isSome = false) →
      jsIncludes (req.acceptEncoding.getD "") "gzip" = true →
      (lookupFS fsys (req.file ++ ".gz")).isSome = true →
      chooseVariant fsys req.file (req.acceptEncoding.getD "") = (req.file ++ ".gz", some "gzip") ∧
      (serveModels fsys req).contentEncoding = some "gzip") ∧
    ((jsIncludes (req.acceptEncoding.getD "") "br" = false ∨
        (lookupFS fsys (req.file ++ ".br")).isSome = false) →
      (jsIncludes (req.acceptEncoding.getD "") "gzip" = false ∨
        (lookupFS fsys (req.file ++ ".gz")).isSome = false) →
      chooseVariant fsys req.file (req.acceptEncoding.getD "") = (req.file, none) ∧
      (serveModels fsys req).contentEncoding = none) := by
  refine ⟨?_, ?_, ?_⟩
  · intro hinc hex
    obtain ⟨sib, hsib⟩ := Option.isSome_iff_exists.mp hex
    have hch : chooseVariant fsys req.file (req.acceptEncoding.getD "") =
        (req.file ++ ".br", some "br") := by
      simp [chooseVariant, hinc, hex]
    have hsel : lookupFS fsys
        (chooseVariant fsys req.file (req.acceptEncoding.getD "")).1 = some sib := by
      rw [hch]
      exact hsib
    obtain ⟨b, hb, hce, -, -⟩ := serveModels_common fsys req i0 sib h0 hsel
    refine ⟨hch, ?_⟩
    rw [hb, hce, hch]
  · intro hno1 hinc hex
    obtain ⟨sib, hsib⟩ := Option.isSome_iff_exists.mp hex
    have hch : chooseVariant fsys req.file (req.acceptEncoding.getD "") =
        (req.file ++ ".gz", some "gzip") := by
      rcases hno1 with h | h <;> simp [chooseVariant, h, hinc, hex]
    have hsel : lookupFS fsys
        (chooseVariant fsys req.file (req.acceptEncoding.getD "")).1 = some sib := by
      rw [hch]
      exact hsib
    obtain ⟨b, hb, hce, -, -⟩ := serveModels_common fsys req i0 sib h0 hsel
    refine ⟨hch, ?_⟩
    rw [hb, hce, hch]
  · intro hno1 hno2
    have hch : chooseVariant fsys req.file (req.acceptEncoding.getD "") = (req.file, none) := by
      rcases hno1 with h1 | h1 <;> rcases hno2 with h2 | h2 <;>
        simp [chooseVariant, h1, h2]
    have hsel : lookupFS fsys
        (chooseVariant fsys req.file (req.acceptEncoding.getD "")).1 = some i0 := by
      rw [hch]
      exact h0
    obtain ⟨b, hb, hce, -, -⟩ := serveModels_common fsys req i0 i0 h0 hsel
    refine ⟨hch, ?_⟩
    rw [hb, hce, hch]

/-- Witness for C2: both siblings present and `Accept-Encoding: gzip, br`;
the brotli branch of the preference applies. -/
theorem c2_witness :
    chooseVariant [("a.glb", ⟨[1], 0⟩), ("a.glb.br", ⟨[2], 0⟩), ("a.glb.gz", ⟨[3], 0⟩)]
      "a.glb" ((some "gzip, br" : Option String).getD "") = ("a.glb.br", some "br") ∧
    (serveModels [("a.glb", ⟨[1], 0⟩), ("a.glb.br", ⟨[2], 0⟩), ("a.glb.gz", ⟨[3], 0⟩)]
      ⟨"a.glb", some "gzip, br", none⟩).contentEncoding = some "br" :=
  (c2_variant_preference [("a.glb", ⟨[1], 0⟩), ("a.glb.br", ⟨[2], 0⟩), ("a.glb.gz", ⟨[3], 0⟩)]
    ⟨"a.glb", some "gzip, br", none⟩ ⟨[1], 0⟩ (by decide)).1 (by decide) (by decide)

/-- Claim C9: a Range header in the HTTP suffix form `bytes=-N` (start
omitted) is answered 416 with `Content-Range: bytes */<total>` and an empty
body, because the empty start field parses as NaN; suffix-range semantics are
never honored. -/
theorem c9_suffix_range_rejected (fsys : FS) (req : Req) (r : String) (t : List Char)
    (i0 info : FileInfo)
    (h0 : lookupFS fsys req.file = some i0)
    (hsel : lookupFS fsys (chooseVariant fsys req.file (req.acceptEncoding.getD "")).1 = some info)
    (hr : req.range = some r)
    (hd : r.data = "bytes=".data ++ ('-' :: t)) :
    (serveModels fsys req).status = 416 ∧
    (serveModels fsys req).contentRange = some ("bytes */" ++ toString info.bytes.length) ∧
    (serveModels fsys req).bodyBytes = [] := by
  have hne : r ≠ "" := by
    intro h
    rw [h] at hd
    simp at hd
  have h1 : (parseRangeHeader r info.bytes.length).1 = none :=
    parseRangeHeader_suffix_start_nan r t info.bytes.length hd
  rw [serveModels_rangeError fsys req i0 info r h0 hsel hr hne (Or.inl h1)]
  exact ⟨rfl, rfl, rfl⟩

/-- Witness for C9: `Range: bytes=-100` on a five-byte asset is answered 416
instead of the last hundred bytes. -/
theorem c9_witness :
    (serveModels [("a.glb", ⟨[1, 2, 3, 4, 5], 0⟩)]
      ⟨"a.glb", none, some "bytes=-100"⟩).status = 416 ∧
    (serveModels [("a.glb", ⟨[1, 2, 3, 4, 5], 0⟩)]
      ⟨"a.glb", none, some "bytes=-100"⟩).contentRange = some "bytes */5" ∧
    (serveModels [("a.glb", ⟨[1, 2, 3, 4, 5], 0⟩)]
      ⟨"a.glb", none, some "bytes=-100"⟩).bodyBytes = [] :=
  c9_suffix_range_rejected [("a.glb", ⟨[1, 2, 3, 4, 5], 0⟩)]
    ⟨"a.glb", none, some "bytes=-100"⟩ "bytes=-100" "100".data
    ⟨[1, 2, 3, 4, 5], 0⟩ ⟨[1, 2, 3, 4, 5], 0⟩ (by decide) (by decide) rfl (by decide)

/-- Counterexample to C3: the `.br` sibling of `a.glb` is strictly older
(mtime 5) than the canonical file (mtime 10), yet the handler still selects it
and serves its bytes — the code never consults modification times, so the
stale sibling is not excluded from selection. -/
theorem c3_counterexample :
    lookupFS [("a.glb", ⟨[1, 2, 3], 10⟩), ("a.glb.br", ⟨[9, 9], 5⟩)] "a.glb" =
      some ⟨[1, 2, 3], 10⟩ ∧
    lookupFS [("a.glb", ⟨[1, 2, 3], 10⟩), ("a.glb.br", ⟨[9, 9], 5⟩)] "a.glb.br" =
      some ⟨[9, 9], 5⟩ ∧
    (5 : Nat) < 10 ∧
    (serveModels [("a.glb", ⟨[1, 2, 3], 10⟩), ("a.glb.br", ⟨[9, 9], 5⟩)]
      ⟨"a.glb", some "br", none⟩).contentEncoding = some "br" ∧
    (serveModels [("a.glb", ⟨[1, 2, 3], 10⟩), ("a.glb.br", ⟨[9, 9], 5⟩)]
      ⟨"a.glb", some "br", none⟩).bodyBytes = [9, 9] := by
  decide

/-- Claim C3 (amended): variant selection ignores modification times entirely;
a sibling variant is selected purely on Accept-Encoding containment and
existence, and is served even when its modification time is strictly older
than the canonical file's. -/
theorem c3_amended_staleness_ignored (fsys : FS) (req : Req) (i0 sib : FileInfo)
    (h0 : lookupFS fsys req.file = some i0)
    (hbr : lookupFS fsys (req.file ++ ".br") = some sib)
    (hae : jsIncludes (req.acceptEncoding.getD "") "br" = true)
    (_hstale : sib.mtime < i0.mtime) :
    chooseVariant fsys req.file (req.acceptEncoding.getD "") = (req.file ++ ".br", some "br") ∧
    (serveModels fsys req).contentEncoding = some "br" := by
  have hex : (lookupFS fsys (req.file ++ ".br")).isSome = true := by
    rw [hbr]
    rfl
  have hch : chooseVariant fsys req.file (req.acceptEncoding.getD "") =
      (req.file ++ ".br", some "br") := by
    simp [chooseVariant, hae, hex]
  have hsel : lookupFS fsys
      (chooseVariant fsys req.file (req.acceptEncoding.getD "")).1 = some sib := by
    rw [hch]
    exact hbr
  obtain ⟨b, hb, hce, -, -⟩ := serveModels_common fsys req i0 sib h0 hsel
  refine ⟨hch, ?_⟩
  rw [hb, hce, hch]

/-- Witness for the amended C3: the stale brotli sibling (mtime 5 against 10)
is still chosen and announced in Content-Encoding. -/
theorem c3_amended_witness :
    chooseVariant [("a.glb", ⟨[1, 2, 3], 10⟩), ("a.glb.br", ⟨[9, 9], 5⟩)] "a.glb"
      ((some "br" : Option String).getD "") = ("a.glb.br", some "br") ∧
    (serveModels [("a.glb", ⟨[1, 2, 3], 10⟩), ("a.glb.br", ⟨[9, 9], 5⟩)]
      ⟨"a.glb", some "br", none⟩).contentEncoding = some "br" :=
  c3_amended_staleness_ignored
    [("a.glb", ⟨[1, 2, 3], 10⟩), ("a.glb.br", ⟨[9, 9], 5⟩)]
    ⟨"a.glb", some "br", none⟩ ⟨[1, 2, 3], 10⟩ ⟨[9, 9], 5⟩
    (by decide) (by decide) (by decide) (by decide)

/-- Counterexample to C4: `Range: bytes=2-100` on a five-byte asset violates
end ≤ total-1, yet the handler answers 206, not the 416 path the claim
requires — the code checks only NaN and start > end, never the upper bound. -/
theorem c4_counterexample :
    parseRangeHeader "bytes=2-100" 5 = (some 2, some 100) ∧
    ¬ ((100 : Int) ≤ (5 : Int) - 1) ∧
    (serveModels [("a.glb", ⟨[0, 1, 2, 3, 4], 0⟩)]
      ⟨"a.glb", none, some "bytes=2-100"⟩).status = 206 ∧
    (serveModels [("a.glb", ⟨[0, 1, 2, 3, 4], 0⟩)]
      ⟨"a.glb", none, some "bytes=2-100"⟩).status ≠ 416 := by
  decide

/-- Claim C4 (amended): only a NaN bound or start > end takes the 416 path;
numeric bounds with start ≤ end are answered 206 even when end exceeds
total-1 or start lies at or beyond total. -/
theorem c4_amended_bounds_not_checked (fsys : FS) (req : Req) (i0 info : FileInfo)
    (r : String) (s e : Int)
    (h0 : lookupFS fsys req.file = some i0)
    (hsel : lookupFS fsys (chooseVariant fsys req.file (req.acceptEncoding.getD "")).1 = some info)
    (hr : req.range = some r) (hne : r ≠ "")
    (hp : parseRangeHeader r info.bytes.length = (some s, some e)) :
    (s ≤ e → (serveModels fsys req).status = 206) ∧
    (e < s → (serveModels fsys req).status = 416) := by
  constructor
  · intro hse
    rw [serveModels_range206 fsys req i0 info r s e h0 hsel hr hne hp hse]
    rfl
  · intro hlt
    rw [serveModels_rangeError fsys req i0 info r h0 hsel hr hne
      (Or.inr (Or.inr ⟨s, e, hp, hlt⟩))]
    rfl

/-- Witness for the amended C4: bounds 2..100 on a five-byte asset still give
status 206. -/
theorem c4_amended_witness :
    ((2 : Int) ≤ 100 →
      (serveModels [("a.glb", ⟨[0, 1, 2, 3, 4], 0⟩)]
        ⟨"a.glb", none, some "bytes=2-100"⟩).status = 206) ∧
    ((100 : Int) < 2 →
      (serveModels [("a.glb", ⟨[0, 1, 2, 3, 4], 0⟩)]
        ⟨"a.glb", none, some "bytes=2-100"⟩).status = 416) :=
  c4_amended_bounds_not_checked [("a.glb", ⟨[0, 1, 2, 3, 4], 0⟩)]
    ⟨"a.glb", none, some "bytes=2-100"⟩ ⟨[0, 1, 2, 3, 4], 0⟩ ⟨[0, 1, 2, 3, 4], 0⟩
    "bytes=2-100" 2 100 (by decide) (by decide) rfl (by decide) (by decide)

end AssetServer
